import Mathlib

/-!
Verification of the auth-gate and TTL-cache subsystems of the
`streamlit-turbo` repository against its natural-language specification.

The Python source is embedded shallowly:
* times are integer seconds (`Int`); `datetime.now()` becomes an explicit
  `now` argument, `timedelta(seconds=ttl)` becomes addition;
* the cache dictionary becomes an association list with overwrite-on-set;
* a Python value that may be `None` is modelled as `Option γ`
  (`none` = Python `None`), so the `cached_result is not None` test of the
  memoizing wrapper is represented faithfully, including its conflation of
  "miss" with "stored None";
* `st.user`, the user store, `st.secrets["admin_emails"]` and the
  rendering/observability calls (`st.error`, `st.warning`, `st.stop`,
  `st.logout`) are external collaborators: their observable behaviour at
  the call sites used by the embedded functions is passed in as explicit
  data, and the calls the code makes to them are collected as effect lists.
-/

namespace StreamlitTurbo

/-! ## `core/cache_manager.py` — `CacheManager` -/

/-- One entry of `CacheManager._cache`: the dict
`{"value": ..., "created_at": ..., "expires_at": ...}` built by `set`.
`expires_at` is optional because `_is_expired` guards on
`"expires_at" not in cache_entry`, even though `set` always stores it.
The stored value is a Python value that may be `None`, hence `Option γ`. -/
structure CacheEntry (γ : Type) where
  value : Option γ
  created_at : Int
  expires_at : Option Int
  deriving Repr, DecidableEq

/-- The `CacheManager` object: the `default_ttl` constructor argument
(Python default 3600) and the `_cache` dict, as an association list
from keys to entries (most recent binding first, keys unique by
construction of `set`/`del`). -/
structure CacheManager (γ : Type) where
  default_ttl : Int
  cache : List (String × CacheEntry γ)
  deriving Repr, DecidableEq

namespace CacheManager

/-- A fresh `CacheManager(default_ttl)` with an empty `_cache`. -/
def init (γ : Type) (default_ttl : Int := 3600) : CacheManager γ :=
  { default_ttl := default_ttl, cache := [] }

/-- Embeds `CacheManager._is_expired`: `False` when the entry has no
`"expires_at"` key, otherwise `datetime.now() > expires_at`. -/
def is_expired (now : Int) (e : CacheEntry γ) : Bool :=
  match e.expires_at with
  | none => false
  | some t => now > t

/-- Dict membership test `key in self._cache`, with the entry when present. -/
def findEntry (m : CacheManager γ) (k : String) : Option (CacheEntry γ) :=
  m.cache.lookup k

/-- Dict deletion `del self._cache[key]`. -/
def delEntry (m : CacheManager γ) (k : String) : CacheManager γ :=
  { m with cache := m.cache.filter (fun p => p.1 ≠ k) }

/-- Embeds `CacheManager.get`: returns the entry's value when present and not
expired; on an expired entry deletes it and returns `None`; on a missing
key returns `None`.  The returned manager carries the eviction side
effect. -/
def get (m : CacheManager γ) (now : Int) (k : String) :
    Option γ × CacheManager γ :=
  match m.findEntry k with
  | some entry =>
      if ¬ is_expired now entry then (entry.value, m)
      else (none, m.delEntry k)
  | none => (none, m)

/-- The expression `ttl or self.default_ttl` at the top of
`CacheManager.set`: Python truthiness replaces both `None` and `0` by the
default. -/
def effective_ttl (default_ttl : Int) : Option Int → Int
  | none => default_ttl
  | some t => if t = 0 then default_ttl else t

/-- Embeds `CacheManager.set`: computes `ttl = ttl or self.default_ttl`,
then stores `{"value": value, "created_at": now, "expires_at": now + ttl}`,
overwriting any existing binding for `key`. -/
def set (m : CacheManager γ) (now : Int) (k : String) (value : Option γ)
    (ttl : Option Int) : CacheManager γ :=
  let entry : CacheEntry γ :=
    { value := value, created_at := now,
      expires_at := some (now + effective_ttl m.default_ttl ttl) }
  { m with cache := (k, entry) :: m.cache.filter (fun p => p.1 ≠ k) }

/-- Embeds `CacheManager.invalidate`: delete the binding if present. -/
def invalidate (m : CacheManager γ) (k : String) : CacheManager γ :=
  m.delEntry k

/-- Embeds `CacheManager.size`: `len(self._cache)`. -/
def size (m : CacheManager γ) : Nat :=
  m.cache.length

/-- Embeds `CacheManager.cleanup_expired`: removes every expired entry and
returns how many were removed. -/
def cleanup_expired (m : CacheManager γ) (now : Int) :
    Nat × CacheManager γ :=
  let expired := m.cache.filter (fun p => is_expired now p.2)
  (expired.length,
   { m with cache := m.cache.filter (fun p => !is_expired now p.2) })

end CacheManager

/-- Outcome of one execution of the memoizing `wrapper`: the value it
returns, the cache afterwards, and how many times the underlying function
was invoked during this call (0 on a hit, 1 otherwise). -/
structure WrapperCall (γ : Type) where
  result : Option γ
  cache : CacheManager γ
  calls : Nat
  deriving Repr, DecidableEq

/-- One execution of the `wrapper` produced by the memoizing decorator of
`cached_function(ttl, ...)` around a function `f`, at time `now` with
argument `arg`.  Here `keyOf` stands for the MD5 key derivation
`_generate_key(...)`, modelled as an abstract deterministic function of
the arguments (identical arguments give the identical key).  The hit test
is Python's `cached_result is not None`, so a cached `None` (modelled as
`Option.none`) is indistinguishable from a miss. -/
def cached_function_call (m : CacheManager γ) (f : β → Option γ)
    (ttl : Int) (keyOf : β → String) (now : Int) (arg : β) :
    WrapperCall γ :=
  let cache_key := keyOf arg
  let r := m.get now cache_key
  match r.1 with
  | some v => { result := some v, cache := r.2, calls := 0 }
  | none =>
      let result := f arg
      { result := result,
        cache := r.2.set now cache_key result (some ttl),
        calls := 1 }

/-! ## `auth/session.py` and `auth/decorators.py` -/

/-- Observable calls the embedded functions make into the Streamlit
rendering / session collaborators. -/
inductive Effect
  | error (msg : String)
  | warning (msg : String)
  | info (msg : String)
  | loginButton
  | logout
  | stop
  deriving Repr, DecidableEq

/-- Outcome of reading `st.user.is_logged_in` from the ambient identity
collaborator: a value, an `AttributeError` (collaborator absent / auth not
configured), or any other exception raised while reading. -/
inductive ReadOutcome (α : Type)
  | ok (v : α)
  | attrError
  | otherError
  deriving Repr, DecidableEq

/-- Embeds `is_authenticated`: returns `st.user.is_logged_in`, catching only
`AttributeError` (returning `False`); any other exception escapes, which
the `Except` error branch records. -/
def is_authenticated : ReadOutcome Bool → Except Unit Bool
  | .ok b => .ok b
  | .attrError => .ok false
  | .otherError => .error ()

/-- The dict built by `get_current_user` for a logged-in principal
(`email` and `sub` are read with `st.user.get`, as are the rest;
only the fields `get_user_role` consumes are kept). -/
structure Principal where
  email : String
  sub : String
  name : Option String
  picture : Option String
  deriving Repr, DecidableEq

/-- A row of the `users` table, restricted to the columns
`get_user_role` reads. -/
structure UserRow where
  email : String
  role : String
  deriving Repr, DecidableEq

/-- Behaviour of the user-store collaborator during the `try` block of
`get_user_role`: the select finds a row; the select finds nothing and the
insert commits; the select finds nothing and the insert raises a
uniqueness violation against an existing row; or the session/lookup
itself raises (store unavailable). -/
inductive StoreBehavior
  | found (row : UserRow)
  | notFoundInsertOk
  | notFoundInsertDuplicate (existing : UserRow)
  | unavailable
  deriving Repr, DecidableEq

/-- Embeds `get_user_role`: `"anonymous"` without a principal; otherwise the
stored role when the select finds a row; `"user"` after a successful lazy
insert; and on any exception in the `try` block (duplicate insert or
unavailable store alike) the fallback: `"admin"` when the email is in
`st.secrets["admin_emails"]` — returned before anything is rendered —
else `st.error(...)` then `"user"`.  Returns the role and the rendered
effects. -/
def get_user_role (user : Option Principal) (store : StoreBehavior)
    (admin_emails : List String) : String × List Effect :=
  match user with
  | none => ("anonymous", [])
  | some u =>
    match store with
    | .found row => (row.role, [])
    | .notFoundInsertOk => ("user", [])
    | .notFoundInsertDuplicate _ =>
        if u.email ∈ admin_emails then ("admin", [])
        else ("user", [.error "Erreur lors de la recuperation du role"])
    | .unavailable =>
        if u.email ∈ admin_emails then ("admin", [])
        else ("user", [.error "Erreur lors de la recuperation du role"])

/-- The identity claims `check_auth` consults: the (non-raising) result
of `is_authenticated()` and `st.user.get("exp")`, a Unix timestamp in
seconds or absent. -/
structure IdentityClaims where
  authenticated : Bool
  exp : Option Int
  deriving Repr, DecidableEq

/-- Embeds `check_token_expiration`: `False` when not authenticated; otherwise
reads `exp = st.user.get("exp")` and tests `if exp:` — Python truthiness,
so both a missing claim and `exp == 0` fall to the `return True` branch —
and for a truthy `exp` returns `datetime.now() < datetime.fromtimestamp(exp)`. -/
def check_token_expiration (now : Int) (s : IdentityClaims) : Bool :=
  if !s.authenticated then false
  else
    match s.exp with
    | some e => if e = 0 then true else decide (now < e)
    | none => true

/-- Embeds `check_auth`: `False` when not authenticated; when the token check
fails, renders a warning, calls `logout_user` (which calls `st.logout()`)
and returns `False`; otherwise `True`. -/
def check_auth (now : Int) (s : IdentityClaims) : Bool × List Effect :=
  if !s.authenticated then (false, [])
  else if !check_token_expiration now s then
    (false, [.warning "Votre session a expire. Veuillez vous reconnecter.",
             .logout])
  else (true, [])

/-- Outcome of one run of the `wrapper` that `require_role(allowed_roles,
denied_message)` wraps around a page body: the effects rendered and
whether the body was executed (`st.stop()` raises a script-stop, so
nothing after it runs). -/
structure GuardRun where
  effects : List Effect
  bodyRan : Bool
  deriving Repr, DecidableEq

/-- The `wrapper` of `require_role`: if `is_authenticated()` is false,
warn, render the login button and `st.stop()`; otherwise resolve
`user_role = get_user_role()` and, when it is not in `allowed_roles`,
render the denial message, the current role, the required roles, and
`st.stop()`; only otherwise run the body. -/
def require_role_wrapper (allowed_roles : List String)
    (denied_message : String) (authenticated : Bool)
    (user : Option Principal) (store : StoreBehavior)
    (admin_emails : List String) : GuardRun :=
  if !authenticated then
    { effects := [.warning "Vous devez etre connecte pour acceder a cette page.",
                  .loginButton, .stop],
      bodyRan := false }
  else
    let r := get_user_role user store admin_emails
    if r.1 ∉ allowed_roles then
      { effects := r.2 ++
          [.error denied_message,
           .info ("Votre role actuel: " ++ r.1),
           .info ("Roles requis: " ++ String.intercalate ", " allowed_roles),
           .stop],
        bodyRan := false }
    else
      { effects := r.2, bodyRan := true }

end StreamlitTurbo

/-! ## Helper lemmas -/

namespace StreamlitTurbo

namespace CacheManager

/-- Looking up a key in a list from which every binding of that key has
been filtered out finds nothing. -/
theorem lookup_filter_ne (k : String) (l : List (String × α)) :
    (l.filter (fun p => p.1 ≠ k)).lookup k = none := by
  induction l with
  | nil => rfl
  | cons h t ih =>
      by_cases hk : h.1 = k
      · simpa [List.filter, hk] using ih
      · have hbeq : (k == h.1) = false := by
          rw [beq_eq_false_iff_ne]
          exact fun e => hk e.symm
        simp [List.filter, hk, List.lookup, hbeq, ih]
        exact fun a b _ hne e => hne e.symm

/-- Deleting a key removes its binding. -/
theorem findEntry_delEntry_self (m : CacheManager γ) (k : String) :
    (m.delEntry k).findEntry k = none := by
  simpa [delEntry, findEntry] using lookup_filter_ne k m.cache

/-- The binding written by `set` is the one found afterwards. -/
theorem findEntry_set_self (m : CacheManager γ) (t : Int) (k : String)
    (v : Option γ) (ttl : Option Int) :
    (m.set t k v ttl).findEntry k =
      some ⟨v, t, some (t + effective_ttl m.default_ttl ttl)⟩ := by
  simp [set, findEntry, List.lookup]

/-- Behaviour of `get` on a missing key. -/
theorem get_not_found (m : CacheManager γ) (now : Int) (k : String)
    (hf : m.findEntry k = none) : m.get now k = (none, m) := by
  simp [get, hf]

/-- Behaviour of `get` on a present, unexpired entry. -/
theorem get_found_not_expired (m : CacheManager γ) (now : Int) (k : String)
    (e : CacheEntry γ) (hf : m.findEntry k = some e)
    (he : is_expired now e = false) : m.get now k = (e.value, m) := by
  simp [get, hf, he]

/-- Behaviour of `get` on a present, expired entry. -/
theorem get_found_expired (m : CacheManager γ) (now : Int) (k : String)
    (e : CacheEntry γ) (hf : m.findEntry k = some e)
    (he : is_expired now e = true) : m.get now k = (none, m.delEntry k) := by
  simp [get, hf, he]

end CacheManager

/-! ## Claims about the TTL cache -/

/-- C7: `get(key)` returns absent when no entry exists or when the
entry's `expires_at` has passed; in the expired case the entry is removed
from the cache as a side effect of the `get`, and in the unexpired case
the stored value is returned. -/
theorem get_is_lazy_expiry (m : CacheManager γ) (now : Int) (k : String) :
    (m.findEntry k = none → m.get now k = (none, m)) ∧
    (∀ v c t, m.findEntry k = some ⟨v, c, some t⟩ → now ≤ t →
        m.get now k = (v, m)) ∧
    (∀ v c t, m.findEntry k = some ⟨v, c, some t⟩ → t < now →
        (m.get now k).1 = none ∧ ((m.get now k).2).findEntry k = none) := by
  refine ⟨fun hf => m.get_not_found now k hf, ?_, ?_⟩
  · intro v c t hf hle
    exact m.get_found_not_expired now k _ hf
      (by simp [CacheManager.is_expired]; omega)
  · intro v c t hf hlt
    have := m.get_found_expired now k _ hf
      (by simp [CacheManager.is_expired]; omega)
    rw [this]
    exact ⟨rfl, m.findEntry_delEntry_self k⟩

/-- Witness for C7: a concrete expired entry is reported absent and
evicted by `get`. -/
theorem get_is_lazy_expiry_witness :
    ((5 : Int) < 10) ∧
    (((⟨3600, [("k", ⟨some 1, 0, some 5⟩)]⟩ : CacheManager Nat).get 10 "k").1
        = none ∧
      ((((⟨3600, [("k", ⟨some 1, 0, some 5⟩)]⟩ : CacheManager Nat).get 10
          "k").2).findEntry "k") = none) :=
  ⟨by decide,
   (get_is_lazy_expiry (⟨3600, [("k", ⟨some 1, 0, some 5⟩)]⟩ : CacheManager Nat)
      10 "k").2.2 (some 1) 0 5 rfl (by decide)⟩

/-- C2 counterexample: `set` with the `ttl` argument absent does not
store an entry without expiry — the entry expires after `default_ttl`
(3600) seconds, so a `get` 4000 seconds later no longer returns the
value. -/
theorem set_absent_ttl_counterexample :
    (((CacheManager.init Nat).set 0 "k" (some 42) none).get 4000 "k").1
      ≠ some 42 ∧
    (((CacheManager.init Nat).set 0 "k" (some 42) none).get 4000 "k").1
      = none := by
  decide

/-- C2 amended: `set(key, value)` with `ttl` absent stores an entry that
expires `default_ttl` seconds after the write (`ttl = ttl or
self.default_ttl`), so a later `get` returns the value while at most
`default_ttl` seconds have passed and absent strictly afterwards. -/
theorem set_absent_ttl_uses_default (m : CacheManager γ) (t0 t1 t2 : Int)
    (k : String) (v : Option γ) (h1 : t1 ≤ t0 + m.default_ttl)
    (h2 : t0 + m.default_ttl < t2) :
    ((m.set t0 k v none).get t1 k).1 = v ∧
    ((m.set t0 k v none).get t2 k).1 = none := by
  have hf := m.findEntry_set_self t0 k v none
  constructor
  · rw [CacheManager.get_found_not_expired _ t1 k _ hf
      (by simp [CacheManager.is_expired, CacheManager.effective_ttl]; omega)]
  · rw [CacheManager.get_found_expired _ t2 k _ hf
      (by simp [CacheManager.is_expired, CacheManager.effective_ttl]; omega)]

/-- Witness for C2 amended, at `default_ttl = 3600`, write at 0, reads at
100 and 4000. -/
theorem set_absent_ttl_uses_default_witness :
    (((CacheManager.init Nat).set 0 "k" (some 5) none).get 100 "k").1
      = some 5 ∧
    (((CacheManager.init Nat).set 0 "k" (some 5) none).get 4000 "k").1
      = none :=
  set_absent_ttl_uses_default (CacheManager.init Nat) 0 100 4000 "k" (some 5)
    (by decide) (by decide)

/-- C3 counterexample: `set(key, v, ttl=0)` is not already expired — the
immediately following `get` still returns the value, because `ttl or
self.default_ttl` replaces the falsy `0` by the default TTL. -/
theorem set_zero_ttl_counterexample :
    (((CacheManager.init Nat).set 0 "k" (some 7) (some 0)).get 0 "k").1
      ≠ none ∧
    (((CacheManager.init Nat).set 0 "k" (some 7) (some 0)).get 0 "k").1
      = some 7 := by
  decide

/-- C3 amended: `set(key, v, ttl=0)` stores the entry with the default
TTL (Python truthiness treats `0` like an absent `ttl`), so with a
non-negative `default_ttl` an immediately following `get` returns the
value, not absent. -/
theorem set_zero_ttl_uses_default (m : CacheManager γ) (t : Int)
    (k : String) (v : Option γ) (h : 0 ≤ m.default_ttl) :
    (m.set t k v (some 0)).findEntry k =
      some ⟨v, t, some (t + m.default_ttl)⟩ ∧
    ((m.set t k v (some 0)).get t k).1 = v := by
  have hf := m.findEntry_set_self t k v (some 0)
  simp only [CacheManager.effective_ttl, if_pos rfl] at hf
  refine ⟨hf, ?_⟩
  rw [CacheManager.get_found_not_expired _ t k _ hf
    (by simp [CacheManager.is_expired]; omega)]

/-- Witness for C3 amended at `default_ttl = 3600`. -/
theorem set_zero_ttl_uses_default_witness :
    ((CacheManager.init Nat).set 0 "k" (some 7) (some 0)).findEntry "k" =
      some ⟨some 7, 0, some (0 + 3600)⟩ ∧
    (((CacheManager.init Nat).set 0 "k" (some 7) (some 0)).get 0 "k").1
      = some 7 :=
  set_zero_ttl_uses_default (CacheManager.init Nat) 0 "k" (some 7) (by decide)

/-- C4 counterexample: a memoized function whose result is Python `None`
is not invoked exactly once across two identical calls within the TTL
window — the `cached_result is not None` hit test treats the cached
`None` as a miss, so the function runs twice. -/
theorem cached_function_none_counterexample :
    ¬ ((cached_function_call (CacheManager.init Nat) (fun _ : Nat => none)
          3600 (fun _ => "k") 0 0).calls +
        (cached_function_call
          (cached_function_call (CacheManager.init Nat) (fun _ : Nat => none)
            3600 (fun _ => "k") 0 0).cache
          (fun _ : Nat => none) 3600 (fun _ => "k") 0 0).calls = 1) ∧
    (cached_function_call (CacheManager.init Nat) (fun _ : Nat => none)
          3600 (fun _ => "k") 0 0).calls +
        (cached_function_call
          (cached_function_call (CacheManager.init Nat) (fun _ : Nat => none)
            3600 (fun _ => "k") 0 0).cache
          (fun _ : Nat => none) 3600 (fun _ => "k") 0 0).calls = 2 := by
  decide

/-- C4 amended: for a function `f` whose result at the given arguments is
not `None`, two wrapper calls with identical arguments — starting from a
cache whose `get` misses on the derived key, the second call within the
effective TTL window — invoke `f` exactly once: the first call invokes it
and the second is a pure cache hit returning the cached value. -/
theorem cached_function_invokes_once (m : CacheManager γ) (f : β → Option γ)
    (ttl : Int) (keyOf : β → String) (t1 t2 : Int) (arg : β) (v : γ)
    (hmiss : (m.get t1 (keyOf arg)).1 = none) (hv : f arg = some v)
    (hwin : t2 ≤ t1 + CacheManager.effective_ttl m.default_ttl (some ttl)) :
    (cached_function_call m f ttl keyOf t1 arg).calls = 1 ∧
    (cached_function_call (cached_function_call m f ttl keyOf t1 arg).cache
        f ttl keyOf t2 arg).calls = 0 ∧
    (cached_function_call (cached_function_call m f ttl keyOf t1 arg).cache
        f ttl keyOf t2 arg).result = some v := by
  have hc1 : cached_function_call m f ttl keyOf t1 arg =
      { result := f arg,
        cache := (m.get t1 (keyOf arg)).2.set t1 (keyOf arg) (f arg)
          (some ttl),
        calls := 1 } := by
    unfold cached_function_call
    simp only [hmiss]
  have hd : ((m.get t1 (keyOf arg)).2).default_ttl = m.default_ttl := by
    unfold CacheManager.get
    cases hfe : (m.findEntry (keyOf arg)) with
    | none => rfl
    | some e =>
        by_cases he : CacheManager.is_expired t1 e
        · simp [he, CacheManager.delEntry]
        · simp [he]
  have hf := CacheManager.findEntry_set_self (m.get t1 (keyOf arg)).2 t1
    (keyOf arg) (f arg) (some ttl)
  have hget2 := CacheManager.get_found_not_expired
    ((m.get t1 (keyOf arg)).2.set t1 (keyOf arg) (f arg) (some ttl)) t2
    (keyOf arg) _ hf
    (by simp only [CacheManager.is_expired]
        rw [hd]
        simp
        omega)
  rw [hv] at hc1 hget2
  refine ⟨by rw [hc1], ?_, ?_⟩ <;>
    · rw [hc1]
      unfold cached_function_call
      simp [hget2]

/-- Witness for C4 amended: a function returning `some 9`, called twice
with the same argument at times 0 and 100, runs once. -/
theorem cached_function_invokes_once_witness :
    (cached_function_call (CacheManager.init Nat) (fun _ : Nat => some 9)
        3600 (fun _ => "k") 0 0).calls = 1 ∧
    (cached_function_call
        (cached_function_call (CacheManager.init Nat) (fun _ : Nat => some 9)
          3600 (fun _ => "k") 0 0).cache
        (fun _ : Nat => some 9) 3600 (fun _ => "k") 100 0).calls = 0 ∧
    (cached_function_call
        (cached_function_call (CacheManager.init Nat) (fun _ : Nat => some 9)
          3600 (fun _ => "k") 0 0).cache
        (fun _ : Nat => some 9) 3600 (fun _ => "k") 100 0).result = some 9 :=
  cached_function_invokes_once (CacheManager.init Nat) (fun _ : Nat => some 9)
    3600 (fun _ => "k") 0 100 0 9 (by decide) rfl (by decide)

/-! ## Claims about the authentication gate -/

/-- C1: for every email in the admin allow-list, when the store lookup
succeeds and finds a row whose stored role is `"user"`, `get_user_role`
returns `"user"` — the stored role takes precedence and the allow-list is
not consulted. -/
theorem stored_role_precedes_allow_list (p : Principal)
    (admins : List String) (row : UserRow) (_hmem : p.email ∈ admins)
    (hrole : row.role = "user") :
    (get_user_role (some p) (.found row) admins).1 = "user" := by
  simp [get_user_role, hrole]

/-- Witness for C1: an allow-listed email whose stored row says `"user"`
resolves to `"user"`. -/
theorem stored_role_precedes_allow_list_witness :
    "a@x" ∈ ["a@x"] ∧
    (get_user_role (some ⟨"a@x", "s", none, none⟩)
        (.found ⟨"a@x", "user"⟩) ["a@x"]).1 = "user" :=
  ⟨by decide,
   stored_role_precedes_allow_list ⟨"a@x", "s", none, none⟩ ["a@x"]
     ⟨"a@x", "user"⟩ (by decide) rfl⟩

/-- C5 counterexample: on a uniqueness violation during the lazy insert,
`get_user_role` does not re-read the existing row — with an existing row
whose stored role is `"admin"` and an empty allow-list it returns
`"user"`, not the stored role. -/
theorem duplicate_insert_no_reread_counterexample :
    (get_user_role (some ⟨"a@x", "s", none, none⟩)
        (.notFoundInsertDuplicate ⟨"a@x", "admin"⟩) []).1 ≠ "admin" ∧
    (get_user_role (some ⟨"a@x", "s", none, none⟩)
        (.notFoundInsertDuplicate ⟨"a@x", "admin"⟩) []).1 = "user" := by
  constructor
  · intro h
    simp [get_user_role] at h
  · simp [get_user_role]

/-- C5 amended: a uniqueness violation during the lazy insert is caught
by the broad `except` and never surfaced, but no re-read happens — the
result is the generic fallback, `"admin"` when the email is allow-listed
and `"user"` otherwise, independent of the existing row's stored role. -/
theorem duplicate_insert_generic_fallback (p : Principal)
    (e1 e2 : UserRow) (admins : List String) :
    ((get_user_role (some p) (.notFoundInsertDuplicate e1) admins).1 =
      if p.email ∈ admins then "admin" else "user") ∧
    get_user_role (some p) (.notFoundInsertDuplicate e1) admins =
      get_user_role (some p) (.notFoundInsertDuplicate e2) admins := by
  constructor
  · by_cases hm : p.email ∈ admins <;> simp [get_user_role, hm]
  · simp [get_user_role]

/-- C6 counterexample: with the store unavailable and the email in the
allow-list, `get_user_role` returns `"admin"` after rendering nothing —
the underlying error is not surfaced to `st.error`, because the `return
"admin"` precedes the `st.error` call. -/
theorem store_failure_admin_not_logged_counterexample :
    get_user_role (some ⟨"a@x", "s", none, none⟩) .unavailable ["a@x"] =
      ("admin", []) := by
  simp [get_user_role]

/-- C6 amended: when the store lookup/creation raises, `get_user_role`
never raises to its caller and returns `"admin"` for an allow-listed
email and `"user"` otherwise; the error is surfaced via `st.error` only
in the non-allow-listed case. -/
theorem store_failure_fallback (p : Principal) (admins : List String) :
    ((get_user_role (some p) .unavailable admins).1 =
      if p.email ∈ admins then "admin" else "user") ∧
    ((get_user_role (some p) .unavailable admins).2 =
      if p.email ∈ admins then []
      else [Effect.error "Erreur lors de la recuperation du role"]) := by
  by_cases hm : p.email ∈ admins <;> simp [get_user_role, hm]

/-- C8: a caller whose resolved role is not in the allowed set never
reaches the wrapped body: `require_role` checks authentication first, and
on role mismatch renders the denial message, the current role, the
required roles, and halts via `st.stop`. -/
theorem require_role_blocks_disallowed (allowed : List String)
    (msg : String) (auth : Bool) (user : Option Principal)
    (store : StoreBehavior) (admins : List String)
    (hrole : (get_user_role user store admins).1 ∉ allowed) :
    (require_role_wrapper allowed msg auth user store admins).bodyRan
      = false ∧
    (auth = true →
      (require_role_wrapper allowed msg auth user store admins).effects =
        (get_user_role user store admins).2 ++
          [Effect.error msg,
           Effect.info ("Votre role actuel: "
             ++ (get_user_role user store admins).1),
           Effect.info ("Roles requis: " ++ String.intercalate ", " allowed),
           Effect.stop]) := by
  cases auth with
  | false => simp [require_role_wrapper]
  | true => simp [require_role_wrapper, hrole]

/-- Witness for C8: an authenticated caller stored as role `"user"`
cannot run a body guarded by `require_role(["admin"])`. -/
theorem require_role_blocks_disallowed_witness :
    ((get_user_role (some ⟨"u@x", "s", none, none⟩)
        (.found ⟨"u@x", "user"⟩) []).1 ∉ (["admin"] : List String)) ∧
    (require_role_wrapper ["admin"] "Acces refuse" true
        (some ⟨"u@x", "s", none, none⟩) (.found ⟨"u@x", "user"⟩)
        []).bodyRan = false :=
  ⟨by decide,
   (require_role_blocks_disallowed ["admin"] "Acces refuse" true
      (some ⟨"u@x", "s", none, none⟩) (.found ⟨"u@x", "user"⟩) []
      (by decide)).1⟩

/-- C9 counterexample: a failure other than `AttributeError` while
reading `st.user.is_logged_in` is not converted to `False` — it escapes
`is_authenticated`, which catches only `AttributeError`. -/
theorem is_authenticated_uncaught_counterexample :
    is_authenticated ReadOutcome.otherError = Except.error () := rfl

/-- C9 amended: `is_authenticated` returns the collaborator's reported
login state on a successful read and `False` when the read fails with
`AttributeError` (collaborator absent / auth not configured); any other
failure while reading propagates to the caller. -/
theorem is_authenticated_catches_only_attr_error :
    (∀ b, is_authenticated (ReadOutcome.ok b) = Except.ok b) ∧
    is_authenticated ReadOutcome.attrError = Except.ok false ∧
    is_authenticated ReadOutcome.otherError = Except.error () :=
  ⟨fun _ => rfl, rfl, rfl⟩

/-- C10 counterexample: an authenticated identity whose `exp` claim is
the past timestamp `0` is let through — `check_auth` at time 1000 returns
`True` and performs no logout, because `if exp:` treats `0` as falsy. -/
theorem check_auth_zero_exp_counterexample :
    check_auth 1000 ⟨true, some 0⟩ = (true, []) := rfl

/-- C10 amended: `check_auth` returns `True` iff the caller is
authenticated and the token is unexpired, where a missing `exp` claim
or an `exp` equal to `0` counts as unexpired; when the caller is
authenticated and a nonzero `exp` is not in the future, `check_auth`
renders a warning, invokes the logout effect and returns `False`. -/
theorem check_auth_expiration_gate (now : Int) (s : IdentityClaims) :
    ((check_auth now s).1 = true ↔
      s.authenticated = true ∧
        (s.exp = none ∨ s.exp = some 0 ∨
          ∃ e, s.exp = some e ∧ now < e)) ∧
    (s.authenticated = true →
      ∀ e, s.exp = some e → e ≠ 0 → e ≤ now →
        check_auth now s =
          (false,
           [Effect.warning "Votre session a expire. Veuillez vous reconnecter.",
            Effect.logout])) := by
  obtain ⟨a, ex⟩ := s
  cases a with
  | false => simp [check_auth]
  | true =>
      cases ex with
      | none => simp [check_auth, check_token_expiration]
      | some e =>
          by_cases he : e = 0
          · subst he
            simp [check_auth, check_token_expiration]
          · by_cases hlt : now < e <;>
              simp [check_auth, check_token_expiration, he, hlt]

/-- Witness for C10 amended: at time 100 an authenticated identity with
`exp = 50` is logged out and refused. -/
theorem check_auth_expiration_gate_witness :
    check_auth 100 ⟨true, some 50⟩ =
      (false,
       [Effect.warning "Votre session a expire. Veuillez vous reconnecter.",
        Effect.logout]) :=
  (check_auth_expiration_gate 100 ⟨true, some 50⟩).2 rfl 50 rfl
    (by decide) (by decide)

end StreamlitTurbo
